import Mathlib

/-!
Verification of the FastAPI demo application (`app/main.py`).

The file shallowly embeds the route handlers and the authentication helpers of
`app/main.py` as Lean functions and proves the behavioural claims about them.
Modelling conventions:
* Python strings are `String`, Python `None`-able values are `Option`.
* `decimal.Decimal` values are modelled as `ℚ`; every Decimal operation the
  program performs (division by 100, addition of 1, one multiplication on
  short operands) is exact in the default Decimal context, so rational
  arithmetic is faithful on the inputs of the program.
* A raised `HTTPException` is modelled as the `Except.error` branch of an
  `Except HTTPError α` result, carrying status code, detail string and the
  `WWW-Authenticate` header when one is set.
* The Python dict `fake_user_db` is an association list searched by key.
-/

namespace FastAPIDemo

/-- JSON scalar values appearing in serialized responses of the app. -/
inductive Json where
  | str (s : String)
  | bool (b : Bool)
  | null
deriving DecidableEq

/-! ## Item listing (`GET /items`) -/

/-- An entry of `fake_items_db`, a one-field dict `{"item_name": ...}`. -/
structure ItemListEntry where
  item_name : String
deriving DecidableEq

/-- Fixed seed list of the listing endpoint: dicts with item_name Foo, Bar, Baz. -/
def fake_items_db : List ItemListEntry := [⟨"Foo"⟩, ⟨"Bar"⟩, ⟨"Baz"⟩]

/-- Normalization of one bound of a Python slice `l[a:b]` for a list of length
`n`: a negative index counts from the end (clamped below at 0), a nonnegative
index is clamped above at `n`. -/
def sliceIndex (n : Nat) (i : Int) : Nat :=
  if i < 0 then ((n : Int) + i).toNat else min i.toNat n

/-- Python list slicing `l[a:b]` (step 1): the elements whose position lies in
`[sliceIndex n a, sliceIndex n b)`. -/
def pySlice {α : Type} (l : List α) (a b : Int) : List α :=
  (l.take (sliceIndex l.length b)).drop (sliceIndex l.length a)

/-- Handler of `GET /items`: `return fake_items_db[skip : skip + limit]`
(defaults in the route are `skip = 0`, `limit = 10`). -/
def get_items (skip limit : Int) : List ItemListEntry :=
  pySlice fake_items_db skip (skip + limit)

/-! ## Item creation (`POST /items`) -/

/-- Pydantic model `Image` (`url: HttpUrl`, `name: str`); the URL is kept as a
string, its syntactic validity being checked by the validation layer. -/
structure Image where
  url : String
  name : String
deriving DecidableEq

/-- Pydantic model `Item`. `price` and `tax` are `Decimal` in the source,
modelled as `ℚ`; `tags: set[str]` is modelled as the list of its elements. -/
structure Item where
  name : String
  description : Option String
  price : ℚ
  tax : Option ℚ
  tags : List String
  image : Option (List Image)
deriving DecidableEq

/-- Pydantic body validation of `Item`: `description` has `max_length=300` and
`price` has `gt=0`.  The `Field(...)` of the `tax` field sets only a default and a
description string ("Optional.The tax must be greater than 0."); it declares
no `gt` constraint, so no bound on `tax` is enforced. -/
def itemValid (i : Item) : Bool :=
  decide (0 < i.price) &&
    (match i.description with
     | none => true
     | some d => decide (d.length ≤ 300))

/-- Response body of `POST /items`: either the item echoed unchanged, or the
fields of the item together with the derived `price_with_tax` field. -/
inductive CreateItemResponse where
  | plain (item : Item)
  | withTax (item : Item) (price_with_tax : ℚ)
deriving DecidableEq

/-- Handler of `POST /items`: `if not item.tax: return item` (a `Decimal | None`
is falsy exactly when it is `None` or zero), otherwise return the dict of the item
updated with `price_with_tax = item.price * (item.tax / Decimal(100) + Decimal(1))`. -/
def create_item (item : Item) : CreateItemResponse :=
  match item.tax with
  | none => CreateItemResponse.plain item
  | some t =>
      if t = 0 then CreateItemResponse.plain item
      else CreateItemResponse.withTax item (item.price * (t / 100 + 1))

/-- The route decorator of `POST /items` sets `status_code=status.HTTP_201_CREATED`. -/
def create_item_status_code : Nat := 201

/-! ## User directory and authentication helpers -/

/-- Pydantic model `MemberInDB` (`Member` plus `hashed_password`): the record
type stored in `fake_user_db` and returned by `get_member`. -/
structure MemberInDB where
  membername : String
  email : Option String
  full_name : Option String
  disabled : Option Bool
  hashed_password : String
deriving DecidableEq

/-- The `"johndoe"` record of `fake_user_db`. -/
def johndoeRec : MemberInDB :=
  { membername := "johndoe"
    email := some "johndoe@example.com"
    full_name := some "John Doe"
    disabled := some false
    hashed_password := "fakehashedsecret1" }

/-- The `"alice"` record of `fake_user_db`. -/
def aliceRec : MemberInDB :=
  { membername := "alice"
    email := some "alice@example.com"
    full_name := some "Alice Wonderson"
    disabled := some true
    hashed_password := "fakehashedsecret2" }

/-- Definition `fake_user_db`: the in-memory user directory, as an association list. -/
def fake_user_db : List (String × MemberInDB) :=
  [("johndoe", johndoeRec), ("alice", aliceRec)]

/-- Python `db.get(key)` / `key in db` on the association-list model of the
user dict. -/
def dictGet (db : List (String × MemberInDB)) (key : String) : Option MemberInDB :=
  (db.find? (fun kv => kv.fst == key)).map Prod.snd

/-- Definition `fake_hash_password`: prepend the literal `"fakehashed"` to the password. -/
def fake_hash_password (password : String) : String :=
  "fakehashed" ++ password

/-- Definition `get_member`: if the name is a key of the dict, build the
`MemberInDB` record from it; otherwise fall through (Python returns `None`). -/
def get_member (db : List (String × MemberInDB)) (membername : String) :
    Option MemberInDB :=
  dictGet db membername

/-- Definition `fake_decode_token`: look the token up via `get_member` on `fake_user_db`. -/
def fake_decode_token (token : String) : Option MemberInDB :=
  get_member fake_user_db token

/-- A raised `HTTPException`: status code, detail and the optional
`WWW-Authenticate` response header. -/
structure HTTPError where
  status_code : Nat
  detail : String
  www_authenticate : Option String
deriving DecidableEq

/-- Success body of `POST /token`. -/
structure TokenResponse where
  access_token : String
  token_type : String
deriving DecidableEq

/-- Dependency `get_current_menber`: decode the bearer token; a falsy result
(`None`) raises 401 "Invalid authentication credentials" with header
`WWW-Authenticate: Bearer`. -/
def get_current_menber (token : String) : Except HTTPError MemberInDB :=
  match fake_decode_token token with
  | none =>
      Except.error
        { status_code := 401
          detail := "Invalid authentication credentials"
          www_authenticate := some "Bearer" }
  | some member => Except.ok member

/-- Dependency `get_current_active_member`: the member resolved by
`get_current_menber` is rejected with 400 "Inactive member" when
`current_member.disabled` is truthy (i.e. the optional boolean is `True`). -/
def get_current_active_member (token : String) : Except HTTPError MemberInDB :=
  match get_current_menber token with
  | Except.error e => Except.error e
  | Except.ok member =>
      if member.disabled = some true then
        Except.error
          { status_code := 400
            detail := "Inactive member"
            www_authenticate := none }
      else Except.ok member

/-- Handler of `POST /token`: look the submitted username up in `fake_user_db`
(absent raises 400 "Incorrect username or password"), hash the submitted
password with `fake_hash_password` and compare it with the stored
`hashed_password` (mismatch raises the same 400); on success return
`{"access_token": member.membername, "token_type": "bearer"}`. -/
def login (username password : String) : Except HTTPError TokenResponse :=
  match dictGet fake_user_db username with
  | none =>
      Except.error
        { status_code := 400
          detail := "Incorrect username or password"
          www_authenticate := none }
  | some member =>
      if fake_hash_password password = member.hashed_password then
        Except.ok { access_token := member.membername, token_type := "bearer" }
      else
        Except.error
          { status_code := 400
            detail := "Incorrect username or password"
            www_authenticate := none }

/-- Handler of `GET /users/me`: returns the record produced by the
`get_current_active_member` dependency (FastAPI passes dependency results
through unvalidated, so this is the full `MemberInDB` record). -/
def get_me (token : String) : Except HTTPError MemberInDB :=
  get_current_active_member token

def jsonOfOptStr : Option String → Json
  | none => Json.null
  | some s => Json.str s

def jsonOfOptBool : Option Bool → Json
  | none => Json.null
  | some b => Json.bool b

/-- FastAPI serialization of the value returned by `get_me`: the route declares
no `response_model`, so the returned pydantic model is encoded with every one
of its fields — for a `MemberInDB` that is `membername`, `email`, `full_name`,
`disabled` and `hashed_password`. -/
def serializeMemberInDB (m : MemberInDB) : List (String × Json) :=
  [("membername", Json.str m.membername),
   ("email", jsonOfOptStr m.email),
   ("full_name", jsonOfOptStr m.full_name),
   ("disabled", jsonOfOptBool m.disabled),
   ("hashed_password", Json.str m.hashed_password)]


theorem slice_core {α : Type} (l : List α) (s t : Nat) :
    (l.take (min (s + t) l.length)).drop (min s l.length) = (l.drop s).take t := by
  have h1 : l.take (min (s + t) l.length) = l.take (s + t) := by
    rcases le_total (s + t) l.length with h | h
    · rw [Nat.min_eq_left h]
    · rw [Nat.min_eq_right h, List.take_length, List.take_of_length_le h]
  rw [h1]
  rcases le_total s l.length with h | h
  · rw [Nat.min_eq_left h, List.drop_take]
    congr 1
    omega
  · have hlen : (l.take (s + t)).length ≤ l.length := by
      rw [List.length_take]; omega
    rw [Nat.min_eq_right h, List.drop_eq_nil_of_le hlen, List.drop_eq_nil_of_le h,
      List.take_nil]

theorem get_items_nonneg (skip limit : Int) (hs : 0 ≤ skip) (hl : 0 ≤ limit) :
    get_items skip limit = (fake_items_db.drop skip.toNat).take limit.toNat := by
  have hns : ¬ skip < 0 := by omega
  have hnl : ¬ skip + limit < 0 := by omega
  have hadd : (skip + limit).toNat = skip.toNat + limit.toNat := by omega
  rw [get_items, pySlice, sliceIndex, sliceIndex, if_neg hns, if_neg hnl, hadd]
  exact slice_core fake_items_db skip.toNat limit.toNat

theorem dictGet_fake_user_db (m : String) :
    dictGet fake_user_db m =
      if m = "johndoe" then some johndoeRec
      else if m = "alice" then some aliceRec
      else none := by
  by_cases h1 : m = "johndoe"
  · subst h1; rfl
  · by_cases h2 : m = "alice"
    · subst h2; rfl
    · have e1 : ("johndoe" == m) = false := by
        simp [beq_iff_eq]; exact fun h => h1 h.symm
      have e2 : ("alice" == m) = false := by
        simp [beq_iff_eq]; exact fun h => h2 h.symm
      simp [dictGet, fake_user_db, List.find?, e1, e2, h1, h2]

theorem membername_of_dictGet {m : String} {mem : MemberInDB}
    (h : dictGet fake_user_db m = some mem) : mem.membername = m := by
  rw [dictGet_fake_user_db] at h
  by_cases h1 : m = "johndoe"
  · subst h1; simp at h; subst h; rfl
  · by_cases h2 : m = "alice"
    · subst h2; simp [h1] at h; subst h; rfl
    · simp [h1, h2] at h

theorem login_found {m p : String} {mem : MemberInDB}
    (h : dictGet fake_user_db m = some mem) :
    login m p =
      if fake_hash_password p = mem.hashed_password then
        Except.ok { access_token := mem.membername, token_type := "bearer" }
      else
        Except.error
          { status_code := 400
            detail := "Incorrect username or password"
            www_authenticate := none } := by
  simp [login, h]

theorem login_not_found {m p : String}
    (h : dictGet fake_user_db m = none) :
    login m p =
      Except.error
        { status_code := 400
          detail := "Incorrect username or password"
          www_authenticate := none } := by
  simp [login, h]

/-- C1: login with membername m and password p succeeds if and only if m is a key
of the user directory and the string "fakehashed" ++ p equals the stored
hashed_password of that member byte-for-byte; every successful response is
exactly access_token = m with token_type "bearer" (the token is literally the
membername), and in particular membername "johndoe" with password "secret1"
succeeds and returns access_token "johndoe". -/
theorem C1_login_token_issuance :
    (∀ m p : String, (∃ r, login m p = Except.ok r) ↔
        (∃ mem, dictGet fake_user_db m = some mem ∧
          "fakehashed" ++ p = mem.hashed_password))
    ∧ (∀ (m p : String) (r : TokenResponse), login m p = Except.ok r →
        r = { access_token := m, token_type := "bearer" })
    ∧ login "johndoe" "secret1" =
        Except.ok { access_token := "johndoe", token_type := "bearer" } := by
  refine ⟨?_, ?_, by rfl⟩
  · intro m p
    constructor
    · rintro ⟨r, hr⟩
      cases h : dictGet fake_user_db m with
      | none => rw [login_not_found h] at hr; simp at hr
      | some mem =>
          rw [login_found h] at hr
          by_cases hp : fake_hash_password p = mem.hashed_password
          · exact ⟨mem, rfl, by simpa [fake_hash_password] using hp⟩
          · rw [if_neg hp] at hr; simp at hr
    · rintro ⟨mem, h, hp⟩
      exact ⟨_, by rw [login_found h, if_pos (by simpa [fake_hash_password] using hp)]⟩
  · intro m p r hr
    cases h : dictGet fake_user_db m with
    | none => rw [login_not_found h] at hr; simp at hr
    | some mem =>
        rw [login_found h] at hr
        by_cases hp : fake_hash_password p = mem.hashed_password
        · rw [if_pos hp] at hr
          cases hr
          rw [membername_of_dictGet h]
        · rw [if_neg hp] at hr; simp at hr

theorem C1_login_token_issuance_witness :
    (∃ r, login "johndoe" "secret1" = Except.ok r) ∧
    ({ access_token := "johndoe", token_type := "bearer" } : TokenResponse) =
      { access_token := "johndoe", token_type := "bearer" } :=
  ⟨(C1_login_token_issuance.1 "johndoe" "secret1").mpr ⟨johndoeRec, by decide, by decide⟩,
    C1_login_token_issuance.2.1 "johndoe" "secret1"
      { access_token := "johndoe", token_type := "bearer" } (by rfl)⟩

/-- C2: round-trip — whenever login succeeds for membername m, presenting the
returned access_token to the token-validation step resolves, without a 401
error, to the member record whose membername is m. -/
theorem C2_login_token_roundtrip :
    ∀ (m p : String) (r : TokenResponse), login m p = Except.ok r →
      ∃ mem, fake_decode_token r.access_token = some mem ∧
        get_current_menber r.access_token = Except.ok mem ∧
        mem.membername = m := by
  intro m p r hr
  cases h : dictGet fake_user_db m with
  | none => rw [login_not_found h] at hr; simp at hr
  | some mem =>
      rw [login_found h] at hr
      by_cases hp : fake_hash_password p = mem.hashed_password
      · rw [if_pos hp] at hr
        cases hr
        have hdec : fake_decode_token mem.membername = some mem := by
          rw [membername_of_dictGet h]
          exact h
        exact ⟨mem, hdec, by simp [get_current_menber, hdec], membername_of_dictGet h⟩
      · rw [if_neg hp] at hr; simp at hr

theorem C2_login_token_roundtrip_witness :
    ∃ mem,
      fake_decode_token
          ({ access_token := "johndoe", token_type := "bearer" } : TokenResponse).access_token
        = some mem ∧
      get_current_menber
          ({ access_token := "johndoe", token_type := "bearer" } : TokenResponse).access_token
        = Except.ok mem ∧
      mem.membername = "johndoe" :=
  C2_login_token_roundtrip "johndoe" "secret1"
    { access_token := "johndoe", token_type := "bearer" } (by rfl)


theorem gcam_not_found {token : String} (h : fake_decode_token token = none) :
    get_current_active_member token =
      Except.error
        { status_code := 401
          detail := "Invalid authentication credentials"
          www_authenticate := some "Bearer" } := by
  simp [get_current_active_member, get_current_menber, h]

theorem gcam_disabled {token : String} {mem : MemberInDB}
    (h : fake_decode_token token = some mem) (hd : mem.disabled = some true) :
    get_current_active_member token =
      Except.error
        { status_code := 400, detail := "Inactive member", www_authenticate := none } := by
  simp [get_current_active_member, get_current_menber, h, hd]

theorem gcam_active {token : String} {mem : MemberInDB}
    (h : fake_decode_token token = some mem) (hd : ¬ mem.disabled = some true) :
    get_current_active_member token = Except.ok mem := by
  simp [get_current_active_member, get_current_menber, h, hd]

/-- C3: token validation for the protected endpoint — a token that is not a key
of the user directory fails with a 401 error carrying the WWW-Authenticate
Bearer challenge header; a token resolving to a member with disabled = True
(such as "alice") fails with the 400 inactive error; otherwise (such as
"johndoe") the handler runs with the resolved member record. -/
theorem C3_protected_endpoint_gate :
    (∀ token : String, fake_decode_token token = none →
        get_current_active_member token =
          Except.error
            { status_code := 401
              detail := "Invalid authentication credentials"
              www_authenticate := some "Bearer" })
    ∧ (∀ (token : String) (mem : MemberInDB), fake_decode_token token = some mem →
        mem.disabled = some true →
        get_current_active_member token =
          Except.error
            { status_code := 400, detail := "Inactive member", www_authenticate := none })
    ∧ (∀ (token : String) (mem : MemberInDB), fake_decode_token token = some mem →
        ¬ mem.disabled = some true →
        get_current_active_member token = Except.ok mem)
    ∧ get_current_active_member "alice" =
        Except.error
          { status_code := 400, detail := "Inactive member", www_authenticate := none }
    ∧ get_current_active_member "johndoe" = Except.ok johndoeRec := by
  exact ⟨fun _ h => gcam_not_found h, fun _ _ h hd => gcam_disabled h hd,
    fun _ _ h hd => gcam_active h hd, by rfl, by rfl⟩

theorem C3_protected_endpoint_gate_witness :
    get_current_active_member "mallory" =
      Except.error
        { status_code := 401
          detail := "Invalid authentication credentials"
          www_authenticate := some "Bearer" } :=
  C3_protected_endpoint_gate.1 "mallory" (by rfl)

/-- C4: two-run indistinguishability of login failures — for every membername m1
absent from the user directory (any password) and every membername m2 present
with a password whose "fakehashed"-prefixed form differs from the stored hash,
the two failing login results are identical: the same 400 status and the same
generic "Incorrect username or password" detail. -/
theorem C4_login_failure_indistinguishable :
    ∀ (m1 p1 m2 p2 : String) (mem2 : MemberInDB),
      dictGet fake_user_db m1 = none →
      dictGet fake_user_db m2 = some mem2 →
      fake_hash_password p2 ≠ mem2.hashed_password →
      login m1 p1 = login m2 p2 ∧
      login m1 p1 =
        Except.error
          { status_code := 400
            detail := "Incorrect username or password"
            www_authenticate := none } := by
  intro m1 p1 m2 p2 mem2 h1 h2 hp
  rw [login_not_found h1, login_found h2, if_neg hp]
  exact ⟨rfl, rfl⟩

theorem C4_login_failure_indistinguishable_witness :
    login "mallory" "anypw" = login "johndoe" "wrongpw" ∧
    login "mallory" "anypw" =
      Except.error
        { status_code := 400
          detail := "Incorrect username or password"
          www_authenticate := none } :=
  C4_login_failure_indistinguishable "mallory" "anypw" "johndoe" "wrongpw" johndoeRec
    (by rfl) (by rfl) (by decide)

/-- C5 counterexample: for the valid active token "johndoe", the serialized
response of the protected endpoint is not the four profile fields membername,
email, full_name, disabled — it also carries hashed_password, since the route
declares no response model that would filter the returned MemberInDB. -/
theorem C5_profile_counterexample :
    (get_me "johndoe").map (fun mem => (serializeMemberInDB mem).map Prod.fst) ≠
      Except.ok ["membername", "email", "full_name", "disabled"] := by
  intro h
  simp [get_me, get_current_active_member, get_current_menber, fake_decode_token,
    get_member, dictGet, fake_user_db, johndoeRec, aliceRec, List.find?,
    serializeMemberInDB, Except.map] at h

/-- C5 amended: for every caller presenting a valid token of an active member,
the protected endpoint returns the full resolved MemberInDB record, serialized
with exactly the fields membername, email, full_name, disabled and
hashed_password (the stored password hash is included in the response). -/
theorem C5_me_response_fields :
    (∀ (token : String) (mem : MemberInDB), get_me token = Except.ok mem →
        fake_decode_token token = some mem ∧ ¬ mem.disabled = some true ∧
        (serializeMemberInDB mem).map Prod.fst =
          ["membername", "email", "full_name", "disabled", "hashed_password"])
    ∧ (get_me "johndoe").map serializeMemberInDB =
        Except.ok
          [("membername", Json.str "johndoe"),
           ("email", Json.str "johndoe@example.com"),
           ("full_name", Json.str "John Doe"),
           ("disabled", Json.bool false),
           ("hashed_password", Json.str "fakehashedsecret1")] := by
  refine ⟨?_, by rfl⟩
  intro token mem h
  rw [get_me, get_current_active_member] at h
  cases hd : fake_decode_token token with
  | none => simp [get_current_menber, hd] at h
  | some mem2 =>
      simp only [get_current_menber, hd] at h
      by_cases hdis : mem2.disabled = some true
      · simp [hdis] at h
      · simp [hdis] at h
        subst h
        exact ⟨rfl, hdis, rfl⟩

theorem C5_me_response_fields_witness :
    fake_decode_token "johndoe" = some johndoeRec ∧
    ¬ johndoeRec.disabled = some true ∧
    (serializeMemberInDB johndoeRec).map Prod.fst =
      ["membername", "email", "full_name", "disabled", "hashed_password"] :=
  C5_me_response_fields.1 "johndoe" johndoeRec (by rfl)

/-- C9 counterexample: the inactive-account rejection (authorization error) and
the bad-credentials login failure (authentication error) carry the same status
code 400, so a client cannot distinguish them by status alone. -/
theorem C9_status_counterexample :
    ∃ e1 e2 : HTTPError,
      get_current_active_member "alice" = Except.error e1 ∧
      login "johndoe" "wrongpassword" = Except.error e2 ∧
      e1.status_code = e2.status_code :=
  ⟨{ status_code := 400, detail := "Inactive member", www_authenticate := none },
   { status_code := 400, detail := "Incorrect username or password", www_authenticate := none },
   by rfl, by rfl, by rfl⟩

/-- C9 amended: every failing login carries status 400 with the generic
credentials detail; an unknown token is rejected with status 401; the
inactive-account rejection carries status 400 — distinct from the 401
invalid-token error but equal in status to the login failure, so the two
400 errors are distinguishable only by their detail strings. -/
theorem C9_error_status_codes :
    (∀ (m p : String) (e : HTTPError), login m p = Except.error e →
        e.status_code = 400 ∧ e.detail = "Incorrect username or password")
    ∧ (∀ token : String, fake_decode_token token = none →
        get_current_active_member token =
          Except.error
            { status_code := 401
              detail := "Invalid authentication credentials"
              www_authenticate := some "Bearer" })
    ∧ (∀ (token : String) (mem : MemberInDB), fake_decode_token token = some mem →
        mem.disabled = some true →
        get_current_active_member token =
          Except.error
            { status_code := 400, detail := "Inactive member", www_authenticate := none })
    ∧ ("Inactive member" : String) ≠ "Incorrect username or password" := by
  refine ⟨?_, fun _ h => gcam_not_found h, fun _ _ h hd => gcam_disabled h hd, by decide⟩
  intro m p e h
  cases hm : dictGet fake_user_db m with
  | none =>
      rw [login_not_found hm] at h
      cases h
      exact ⟨rfl, rfl⟩
  | some mem =>
      rw [login_found hm] at h
      by_cases hp : fake_hash_password p = mem.hashed_password
      · rw [if_pos hp] at h; simp at h
      · rw [if_neg hp] at h
        cases h
        exact ⟨rfl, rfl⟩

theorem C9_error_status_codes_witness :
    ({ status_code := 400
       detail := "Incorrect username or password"
       www_authenticate := none } : HTTPError).status_code = 400 ∧
    ({ status_code := 400
       detail := "Incorrect username or password"
       www_authenticate := none } : HTTPError).detail = "Incorrect username or password" :=
  C9_error_status_codes.1 "mallory" "pw"
    { status_code := 400
      detail := "Incorrect username or password"
      www_authenticate := none } (by rfl)


/-- Concrete request body of the create-item example: price=10.00, tax=10. -/
def itemTenTen : Item :=
  { name := "Foo"
    description := none
    price := 10
    tax := some 10
    tags := []
    image := none }

/-- Concrete request body with a non-positive tax value. -/
def itemNegativeTax : Item :=
  { name := "Foo"
    description := none
    price := 10
    tax := some (-5)
    tags := []
    image := none }

/-- C6: create-item — when tax is absent or falsy the response is the item
echoed unchanged with no price_with_tax field; otherwise the response is the
fields of the item plus price_with_tax = price * (tax / 100 + 1) computed in
exact (rational) arithmetic; in particular price = 10 with tax = 10 yields
price_with_tax exactly 11, and the configured status code is 201. -/
theorem C6_create_item_tax :
    (∀ item : Item, item.tax = none → create_item item = CreateItemResponse.plain item)
    ∧ (∀ item : Item, item.tax = some 0 → create_item item = CreateItemResponse.plain item)
    ∧ (∀ (item : Item) (t : ℚ), item.tax = some t → t ≠ 0 →
        create_item item = CreateItemResponse.withTax item (item.price * (t / 100 + 1)))
    ∧ create_item itemTenTen = CreateItemResponse.withTax itemTenTen 11
    ∧ create_item_status_code = 201 := by
  refine ⟨?_, ?_, ?_, ?_, rfl⟩
  · intro item h; simp [create_item, h]
  · intro item h; simp [create_item, h]
  · intro item t h ht; simp [create_item, h, ht]
  · show create_item itemTenTen = CreateItemResponse.withTax itemTenTen 11
    simp only [create_item, itemTenTen]
    norm_num

theorem C6_create_item_tax_witness :
    create_item itemTenTen =
      CreateItemResponse.withTax itemTenTen (itemTenTen.price * ((10 : ℚ) / 100 + 1)) :=
  C6_create_item_tax.2.2.1 itemTenTen 10 (by rfl) (by decide)

/-- C7 (code behaviour at the failing input): a body with tax = -5 passes the
pydantic validation layer — the Item model declares no gt constraint on tax,
unlike price — and the handler then runs and computes a price_with_tax of
19/2, instead of the validation rejection the specification requires for
tax ≤ 0. -/
theorem C7_tax_lower_bound_not_enforced :
    itemValid itemNegativeTax = true ∧
    create_item itemNegativeTax =
      CreateItemResponse.withTax itemNegativeTax (19 / 2) := by
  constructor
  · norm_num [itemValid, itemNegativeTax]
  · simp only [create_item, itemNegativeTax]
    norm_num

/-- C8: item listing — for every nonnegative skip and limit the response is the
contiguous slice of the fixed item list from offset skip to skip + limit;
offsets at or past the end yield the empty sequence, never an error; in
particular skip = 1, limit = 1 returns exactly the second element and
skip = 10 returns the empty sequence. -/
theorem C8_get_items_pagination :
    (∀ skip limit : Int, 0 ≤ skip → 0 ≤ limit →
        get_items skip limit = (fake_items_db.drop skip.toNat).take limit.toNat)
    ∧ (∀ skip limit : Int, (fake_items_db.length : Int) ≤ skip → 0 ≤ limit →
        get_items skip limit = [])
    ∧ get_items 1 1 = [{ item_name := "Bar" }]
    ∧ get_items 10 10 = [] := by
  refine ⟨get_items_nonneg, ?_, by rfl, by rfl⟩
  intro skip limit h3 hl
  have hs : 0 ≤ skip := le_trans (by norm_num) h3
  rw [get_items_nonneg skip limit hs hl, List.drop_eq_nil_of_le, List.take_nil]
  simp only [List.length_cons, List.length_nil, List.length] at h3 ⊢
  omega

theorem C8_get_items_pagination_witness :
    get_items 1 1 = (fake_items_db.drop (1 : Int).toNat).take (1 : Int).toNat ∧
    get_items 10 2 = [] :=
  ⟨C8_get_items_pagination.1 1 1 (by decide) (by decide),
   C8_get_items_pagination.2.1 10 2 (by decide) (by decide)⟩

/-- C10: for negative skip the listing endpoint applies Python slice semantics
counting from the end of the list instead of rejecting the value or returning
an empty sequence — with the default limit 10, skip in [-3, -1) yields the
last -skip elements; skip = -1 returns the one-element sequence Baz and
skip = -3 returns the whole list. -/
theorem C10_negative_skip_from_end :
    (∀ skip : Int, skip < 0 → -3 ≤ skip →
        get_items skip 10 = fake_items_db.drop ((3 : Int) + skip).toNat ∧
        get_items skip 10 ≠ [])
    ∧ get_items (-1) 10 = [{ item_name := "Baz" }]
    ∧ get_items (-3) 10 = fake_items_db := by
  refine ⟨?_, by rfl, by rfl⟩
  intro skip h0 h3
  have : skip = -1 ∨ skip = -2 ∨ skip = -3 := by omega
  rcases this with rfl | rfl | rfl
  · exact ⟨by rfl, by decide⟩
  · exact ⟨by rfl, by decide⟩
  · exact ⟨by rfl, by decide⟩

theorem C10_negative_skip_from_end_witness :
    get_items (-1) 10 = fake_items_db.drop ((3 : Int) + (-1)).toNat ∧
    get_items (-1) 10 ≠ [] :=
  C10_negative_skip_from_end.1 (-1) (by decide) (by decide)

end FastAPIDemo
